import Mathlib

/-!
Verification of the S3-Upload-Proxy request pipeline (`proxy.go`, `main.go`)
against its natural-language specification.

The Go source is embedded shallowly: pure string manipulation is translated
to executable Lean functions over `String`/`List Char`; the stateful HTTP
handler (`ServeHTTP` / `allowedResponse`) becomes a function from an explicit
environment (authenticator outcome, backend responses, broker outcomes) to a
`Trace` recording the observable effects of one request (status written,
events handed to the messenger, whether the backend was called, whether a Go
panic or a `log.Fatal` process termination was reached).
-/

deriving instance DecidableEq for Except

namespace S3Proxy

/-! Section: Go string primitives

The Go code uses `strings.Contains`, `strings.HasSuffix`, `strings.Split`,
`strings.Replace(…, 1)`, `strings.ReplaceAll` and two fixed regular
expressions.  We model them over `List Char` with structural recursion so
that every theorem can be evaluated by the kernel (`decide`/`rfl`).
-/

/-- First occurrence of `pat` in `s`: `splitFirst s pat = some (pre, post)`
when `s = pre ++ pat ++ post` with `pre` shortest; `none` when `pat` does not
occur in `s` (for nonempty `pat`).  This is the single primitive from which
`strings.Contains`, `strings.Split` (elements 0 and 1) and
`strings.Replace(…, 1)` are modelled. -/
def splitFirst : List Char → List Char → Option (List Char × List Char)
  | [], pat => if pat.isEmpty then some ([], []) else none
  | c :: cs, pat =>
    if pat.isPrefixOf (c :: cs) then some ([], (c :: cs).drop pat.length)
    else
      match splitFirst cs pat with
      | some (pre, post) => some (c :: pre, post)
      | none => none

/-- Go `strings.Contains(s, sub)`: `sub` occurs as a substring of `s`. -/
def goContains (s sub : String) : Bool := (splitFirst s.data sub.data).isSome

/-- Go `strings.HasSuffix(s, suffix)`. -/
def goHasSuffix (s suffix : String) : Bool := suffix.data.isSuffixOf s.data

/-- Go `strings.Replace(s, pat, "", 1)`: remove the first occurrence of `pat`
from `s` (used in `requestInfo` to strip the leading `/<bucket>/`). -/
def goReplaceFirstWithEmpty (s pat : String) : String :=
  match splitFirst s.data pat.data with
  | some (pre, post) => ⟨pre ++ post⟩
  | none => s

/-- Go `strings.ReplaceAll(etag, "\"", "")`: removing every occurrence of the
one-character string `"` is exactly filtering that character out. -/
def stripQuotes (s : String) : String := ⟨s.data.filter (fun c => c != '"')⟩

/-- Elements `0` and `1` of Go `strings.Split(s, sep)`.  Go returns the list
of substrings between occurrences of `sep`; `proxy.go` indexes `params[0]`
and `params[1]`.  When `sep` does not occur, Go's slice has length 1 and the
access `params[1]` panics: that case is `none` here. -/
def goSplitGet01 (s sep : List Char) : Option (List Char × List Char) :=
  match splitFirst s sep with
  | none => none
  | some (pre, rest) =>
    some (pre, match splitFirst rest sep with
               | some (mid, _) => mid
               | none => rest)

/-! Section: The two username regular expressions

`proxy.go` compiles `"/([^/]+)/"` (in `prependBucketToHostPath`) and
`"/[^/]+/([^/]+)/"` (in `CreateMessageFromRequest`) and takes submatch `[1]`
of `FindStringSubmatch`.  Both patterns are anchored nowhere, so Go finds the
leftmost match; `[^/]+` is a maximal nonempty run of non-`/` characters and,
because a shorter run would be followed by a non-`/` character, no
backtracking inside a run can succeed — a match starting at position `i`
exists exactly when the maximal run after `/` is nonempty and followed by
`/`.  `FindStringSubmatch` returns `nil` when there is no match, and the Go
code's `[1]` index then panics: that is `none` here. -/

/-- Capture group of the leftmost match of `/([^/]+)/`. -/
def findFirstSeg : List Char → Option (List Char)
  | [] => none
  | c :: rest =>
    if c = '/' then
      let seg := rest.takeWhile (fun d => d != '/')
      if seg.length > 0 && (rest.drop seg.length).length > 0 then some seg
      else findFirstSeg rest
    else findFirstSeg rest

/-- Capture group of the leftmost match of `/[^/]+/([^/]+)/`. -/
def findSecondSeg : List Char → Option (List Char)
  | [] => none
  | c :: rest =>
    if c = '/' then
      let seg1 := rest.takeWhile (fun d => d != '/')
      (match rest.drop seg1.length with
       | '/' :: tail2 =>
         if seg1.length > 0 then
           let seg2 := tail2.takeWhile (fun d => d != '/')
           if seg2.length > 0 && (tail2.drop seg2.length).length > 0 then some seg2
           else findSecondSeg rest
         else findSecondSeg rest
       | _ => findSecondSeg rest)
    else findSecondSeg rest

/-! Section: URLs and request classification -/

/-- The part of `net/url.URL` the proxy reads: the (escaped) path and the raw
query string. -/
structure URL where
  path : String
  rawQuery : String
deriving DecidableEq, Repr

/-- Go `r.URL.String()` for a server-side request URL (no scheme, host,
opaque part or fragment): the escaped path, followed by `?` and the raw query
when the query is nonempty.  The model takes `path` to be the escaped path as
received (paths containing characters Go would re-escape, such as a literal
`?`, are outside the model; every concrete input below is escape-free). -/
def URL.toGoString (u : URL) : String :=
  u.path ++ (if u.rawQuery = "" then "" else "?" ++ u.rawQuery)

/-- The nine request categories of `proxy.go`. -/
inductive S3RequestType where
  | MakeBucket | RemoveBucket | List | Put | Get | Delete | AbortMultipart | Policy | Other
deriving DecidableEq, Repr

/-- `(p *Proxy) detectRequestType(r)` from `proxy.go`: every suffix and
containment test is performed on `r.URL.String()`, i.e. on the path joined
with the query. -/
def detectRequestType (method : String) (u : URL) : S3RequestType :=
  let s := u.toGoString
  if method = "GET" then
    if goHasSuffix s "/" then .Get
    else if goContains s "?acl" then .Policy
    else .List
  else if method = "DELETE" then
    if goHasSuffix s "/" then .RemoveBucket
    else if goContains s "uploadId" then .AbortMultipart
    else .Delete
  else if method = "PUT" then
    if goHasSuffix s "/" then .MakeBucket
    else if goContains s "?policy" then .Policy
    else .Put
  else .Other

/-- The classification rule tables exactly as the claim words them: the
suffix test on the *path* alone, the `acl`/`policy` containment tests on the
*query* alone, the `uploadId` test on query or path.  Stated only to be
compared with `detectRequestType`; not part of the source embedding. -/
def classifyClaim (method path query : String) : S3RequestType :=
  if method = "GET" then
    if goHasSuffix path "/" then .Get
    else if goContains query "acl" then .Policy
    else .List
  else if method = "DELETE" then
    if goHasSuffix path "/" then .RemoveBucket
    else if goContains query "uploadId" || goContains path "uploadId" then .AbortMultipart
    else .Delete
  else if method = "PUT" then
    if goHasSuffix path "/" then .MakeBucket
    else if goContains query "policy" then .Policy
    else .Put
  else .Other

/-- The amended rule tables: identical shape, but every test is on the full
URL string `path ++ "?" ++ query` (query nonempty), and the Policy tests look
for `?acl` / `?policy`. -/
def classifyAmended (method : String) (s : String) : S3RequestType :=
  if method = "GET" then
    if goHasSuffix s "/" then .Get
    else if goContains s "?acl" then .Policy
    else .List
  else if method = "DELETE" then
    if goHasSuffix s "/" then .RemoveBucket
    else if goContains s "uploadId" then .AbortMultipart
    else .Delete
  else if method = "PUT" then
    if goHasSuffix s "/" then .MakeBucket
    else if goContains s "?policy" then .Policy
    else .Put
  else .Other

/-! Section: Namespace rewriter -/

/-- `(p *Proxy) prependBucketToHostPath(r)` from `proxy.go`.  The function
first extracts the username with regex `/([^/]+)/` (panic when there is no
match), then, for a GET whose URL string contains `?delimiter`, rewrites the
path to the bucket root and injects `prefix=<username>%2F` into the query
(via `strings.Split(rawQuery, "&prefix=")` and indices `[0]`,`[1]` — a panic
when `&prefix` occurs but `&prefix=` does not); for a GET containing
`?location` it rewrites the path to the bucket root; for POST/PUT it
prepends `/<bucket>` to the path.  `none` models a Go panic. -/
def prependBucketToHostPath (bucket : String) (method : String) (u : URL) : Option URL :=
  match findFirstSeg u.path.data with
  | none => none
  | some uname =>
    let username : String := ⟨uname⟩
    if method = "GET" && goContains u.toGoString "?delimiter" then
      if goContains u.rawQuery "&prefix" then
        match goSplitGet01 u.rawQuery.data "&prefix=".data with
        | none => none
        | some (p0, p1) =>
          some ⟨"/" ++ bucket ++ "/", (⟨p0⟩ : String) ++ "&prefix=" ++ username ++ "%2F" ++ (⟨p1⟩ : String)⟩
      else
        some ⟨"/" ++ bucket ++ "/", u.rawQuery ++ "&prefix=" ++ username ++ "%2F"⟩
    else if method = "GET" && goContains u.toGoString "?location" then
      some ⟨"/" ++ bucket ++ "/", u.rawQuery⟩
    else if method = "POST" || method = "PUT" then
      some ⟨"/" ++ bucket ++ u.path, u.rawQuery⟩
    else
      some u

/-! Section: Completion detector -/

/-- `(p *Proxy) uploadFinishedSuccessfully(req, response)` from `proxy.go`:
note the status test is `response.StatusCode != 200`, and both containment
tests are on `req.URL.String()`. -/
def uploadFinishedSuccessfully (method : String) (u : URL) (statusCode : Nat) : Bool :=
  if statusCode ≠ 200 then false
  else if method = "PUT" && !goContains u.toGoString "partNumber" then true
  else if method = "POST" && goContains u.toGoString "uploadId" then true
  else false

/-! Section: Events and their wire form -/

/-- `Checksum` from `main.go` (json tags `type`, `value`). -/
structure Checksum where
  type : String
  value : String
deriving DecidableEq, Repr

/-- The event of `main.go` as populated by the live path
`(p *Proxy).CreateMessageFromRequest` in `proxy.go`.  The json tags are
`operation`, `user`, `filepath`, `filesize`, `encoded_checksum`.  `proxy.go`
assigns the checksum field a one-element slice (`[]interface{}{checksum}`),
so the field is embedded as a list of checksums; the struct declaration in
`main.go` types the same field as a single `Checksum` — the two files
disagree, and the embedding follows the value the live path constructs. -/
structure Event where
  operation : String
  username : String
  filepath : String
  filesize : Int
  checksum : List Checksum
deriving DecidableEq, Repr

/-- `json.Marshal` on one `Checksum` (no string escaping modelled; every
field value below is free of JSON-special characters). -/
def serializeChecksum (c : Checksum) : String :=
  "\x7b\"type\":\"" ++ c.type ++ "\",\"value\":\"" ++ c.value ++ "\"\x7d"

/-- `json.Marshal` on the event, with the field order and json tags of
`main.go` and the one-element checksum slice of `proxy.go`. -/
def serializeEvent (e : Event) : String :=
  "\x7b\"operation\":\"" ++ e.operation ++ "\",\"user\":\"" ++ e.username ++
    "\",\"filepath\":\"" ++ e.filepath ++ "\",\"filesize\":" ++ toString e.filesize ++
    ",\"encoded_checksum\":[" ++ String.intercalate "," (e.checksum.map serializeChecksum) ++ "]\x7d"

/-! Section: Metadata resolver -/

/-- One entry of an S3 `ListObjectsV2` result (`ETag`, `Size`). -/
structure S3Object where
  eTag : String
  size : Int
deriving DecidableEq, Repr

/-- The listing prefix `(p *Proxy) requestInfo` queries:
`strings.Replace(fullPath, "/"+bucket+"/", "", 1)`. -/
def requestInfoKey (bucket fullPath : String) : String :=
  goReplaceFirstWithEmpty fullPath ("/" ++ bucket ++ "/")

/-- `(p *Proxy) requestInfo(fullPath)` from `proxy.go`.  `sessionErr` is the
outcome of `p.newSession()`; `listObjects` maps the queried prefix to the
outcome of `svc.ListObjectsV2` (`Except.ok` carries `result.Contents`).  On a
successful listing the code returns
`strings.ReplaceAll(*result.Contents[0].ETag, "\"", "")` and
`*result.Contents[0].Size` with no emptiness guard: a successful empty
listing reaches the `Contents[0]` dereference, a Go index-out-of-range
panic, modelled as `none`.  `some (.error e)` is an error return,
`some (.ok (etag, size))` a successful return. -/
def requestInfo (bucket fullPath : String) (sessionErr : Option String)
    (listObjects : String → Except String (List S3Object)) :
    Option (Except String (String × Int)) :=
  match sessionErr with
  | some e => some (.error e)
  | none =>
    match listObjects (requestInfoKey bucket fullPath) with
    | .error e => some (.error e)
    | .ok [] => none
    | .ok (obj :: _) => some (.ok (stripQuotes obj.eTag, obj.size))

/-! Section: Event builder -/

/-- Outcome of `(p *Proxy) CreateMessageFromRequest(r)`:
`panicked` models a Go runtime panic (nil regex submatch indexed, or the
unguarded `Contents[0]` dereference inside `requestInfo`), `fatal` models
`log.Fatalf` — the process exits. -/
inductive CMResult where
  | panicked
  | fatal (msg : String)
  | ok (e : Event)
deriving DecidableEq, Repr

/-- `(p *Proxy) CreateMessageFromRequest(r)` from `proxy.go`, called with the
request *after* `prependBucketToHostPath` has rewritten `r.URL` (so `u.path`
is the bucket-prefixed path).  The username regex here is
`/[^/]+/([^/]+)/` — the segment after the bucket; a `requestInfo` error hits
`log.Fatalf("could not get checksum information: …")`. -/
def createMessageFromRequest (bucket : String) (sessionErr : Option String)
    (listObjects : String → Except String (List S3Object)) (u : URL) : CMResult :=
  match findSecondSeg u.path.data with
  | none => .panicked
  | some uname =>
    match requestInfo bucket u.path sessionErr listObjects with
    | none => .panicked
    | some (.error e) => .fatal ("could not get checksum information: " ++ e)
    | some (.ok (etag, size)) =>
      .ok { operation := "upload"
            username := ⟨uname⟩
            filepath := u.path
            filesize := size
            checksum := [{ type := "md5", value := etag }] }

/-! Section: The request pipeline -/

/-- The backend's answer as the proxy reads it. -/
structure HttpResponse where
  statusCode : Nat
  headers : List (String × String)
  body : String
deriving DecidableEq, Repr

/-- One request's external collaborators: the authenticator's verdict, the
backend (`forwardToBackend` outcome on the rewritten URL), the S3 session
and listing used by `requestInfo`, the messenger's verdict, and whether the
final `io.Copy` of the body fails. -/
structure Env where
  authErr : Option String
  forward : URL → Except String HttpResponse
  sessionErr : Option String
  listObjects : String → Except String (List S3Object)
  sendErr : Event → Option String
  bodyCopyFails : Bool

/-- Observable effects of handling one request.  `status` is the status code
written to the client (`none` when the handler died before writing one);
`events` lists the messages handed to `messenger.SendMessage`; `terminated`
records that a `log.Fatal` variant exited the process; `panicked` records a
Go runtime panic. -/
structure Trace where
  status : Option Nat
  events : List Event
  authChecked : Bool
  rewritten : Bool
  backendCalled : Bool
  terminated : Bool
  panicked : Bool
deriving DecidableEq, Repr

/-- The trace of `notAllowedResponse`: `w.WriteHeader(403)` and nothing
else — no authentication, no rewrite, no backend call, no event. -/
def deniedTrace : Trace :=
  { status := some 403, events := [], authChecked := false, rewritten := false
    backendCalled := false, terminated := false, panicked := false }

/-- `(p *Proxy) allowedResponse(w, r)` from `proxy.go`: authenticate (401 on
error), rewrite (`prependBucketToHostPath`), forward (500 on error), build
and send one message when `uploadFinishedSuccessfully`, then copy headers
and body back.  The handler never forwards the backend's status code: the
first body write performs an implicit `WriteHeader(200)`.  A failing final
`io.Copy` hits `log.Fatalln("redirect error")`. -/
def allowedResponse (bucket : String) (env : Env) (method : String) (u : URL) : Trace :=
  if env.authErr.isSome then
    { status := some 401, events := [], authChecked := true, rewritten := false
      backendCalled := false, terminated := false, panicked := false }
  else
    match prependBucketToHostPath bucket method u with
    | none =>
      { status := none, events := [], authChecked := true, rewritten := false
        backendCalled := false, terminated := false, panicked := true }
    | some u' =>
      match env.forward u' with
      | .error _ =>
        { status := some 500, events := [], authChecked := true, rewritten := true
          backendCalled := true, terminated := false, panicked := false }
      | .ok resp =>
        if uploadFinishedSuccessfully method u' resp.statusCode then
          match createMessageFromRequest bucket env.sessionErr env.listObjects u' with
          | .panicked =>
            { status := none, events := [], authChecked := true, rewritten := true
              backendCalled := true, terminated := false, panicked := true }
          | .fatal _ =>
            { status := none, events := [], authChecked := true, rewritten := true
              backendCalled := true, terminated := true, panicked := false }
          | .ok ev =>
            -- SendMessage's error is only logged; the event was handed over either way
            { status := some 200, events := [ev], authChecked := true, rewritten := true
              backendCalled := true, terminated := env.bodyCopyFails, panicked := false }
        else
          { status := some 200, events := [], authChecked := true, rewritten := true
            backendCalled := true, terminated := env.bodyCopyFails, panicked := false }

/-- `isAllowed` names the policy gate embedded in `ServeHTTP`'s switch: the
first case list (`MakeBucket, RemoveBucket, Delete, Policy, Get`) denies, the
second (`Put, List, Other, AbortMultipart`) allows; the Go `default` arm also
denies, and is unreachable because the nine listed categories are exhaustive
(in Lean the match is total over the inductive). -/
def isAllowed : S3RequestType → Bool
  | .MakeBucket | .RemoveBucket | .Delete | .Policy | .Get => false
  | .Put | .List | .Other | .AbortMultipart => true

/-- `(p *Proxy) ServeHTTP(w, r)` from `proxy.go`. -/
def serveHTTP (bucket : String) (env : Env) (method : String) (u : URL) : Trace :=
  if isAllowed (detectRequestType method u) then allowedResponse bucket env method u
  else deniedTrace

/-! Section: The AMQP publisher (`main.go`) -/

/-- The configuration the publisher uses per call. -/
structure AMQPMessenger where
  exchange : String
  routingKey : String
deriving DecidableEq, Repr

/-- One delivery confirmation from the broker (`amqp.Confirmation`). -/
structure Confirmation where
  ack : Bool
  deliveryTag : Nat
deriving DecidableEq, Repr

/-- The `amqp.Publishing` fields `SendMessage` fills in, together with the
positional `Publish` arguments. -/
structure Publishing where
  exchange : String
  routingKey : String
  mandatory : Bool
  immediate : Bool
  contentEncoding : String
  contentType : String
  deliveryMode : Nat
  correlationId : String
  priority : Nat
  body : String
deriving DecidableEq, Repr

/-- `confirmOne(confirms)` from `main.go`: receive one confirmation from the
channel; an un-acked confirmation is an error, an acked one is logged and
`nil`. -/
def confirmOne (c : Confirmation) : Except String Unit :=
  if !c.ack then .error ("failed delivery of delivery tag: " ++ toString c.deliveryTag)
  else .ok ()

/-- What one `SendMessage` call did: the publishing it issued, how many
confirmations it received from the channel before returning (the deferred
`confirmOne` blocks on exactly one), and the error value returned to the
caller. -/
structure SendTrace where
  published : Publishing
  confirmationsAwaited : Nat
  returned : Option String
deriving DecidableEq, Repr

/-- `(m *AMQPMessenger) SendMessage(message)` from `main.go`.  `corrId` is
the fresh `uuid.NewRandom()` value, `publishErr` the error returned by
`channel.Publish`, and `conf` the single confirmation the deferred
`confirmOne(confirms)` receives before the function returns.  The deferred
call's `Except` result is discarded (Go ignores the return value of a
deferred function), so only `publishErr` reaches the caller. -/
def sendMessage (m : AMQPMessenger) (message : Event) (corrId : String)
    (publishErr : Option String) (conf : Confirmation) : SendTrace :=
  let body := serializeEvent message
  let pub : Publishing :=
    { exchange := m.exchange, routingKey := m.routingKey
      mandatory := false, immediate := false
      contentEncoding := "UTF-8", contentType := "application/json"
      deliveryMode := 1, correlationId := corrId, priority := 0, body := body }
  let discarded := confirmOne conf
  let _ := discarded
  { published := pub, confirmationsAwaited := 1, returned := publishErr }

/-! Section: Concrete scenario environments -/

/-- A healthy collaborator set for bucket `test`: authentication succeeds,
the backend answers 200, the listing for key `alice/data.bam` reports the
object with ETag `"abc123"` (quoted, as S3 returns it) and size 100, and the
broker accepts the message. -/
def happyEnv : Env :=
  { authErr := none
    forward := fun _ => .ok { statusCode := 200, headers := [], body := "" }
    sessionErr := none
    listObjects := fun pre =>
      if pre = "alice/data.bam" then .ok [{ eTag := "\"abc123\"", size := 100 }]
      else .error "NoSuchKey"
    sendErr := fun _ => none
    bodyCopyFails := false }

/-- Same collaborators, but the backend metadata listing fails (for example
the listing connection is refused). -/
def listingFailsEnv : Env :=
  { happyEnv with listObjects := fun _ => .error "RequestError: connection refused" }

/-- The event the live path constructs in the `happyEnv` scenario for
`PUT /alice/data.bam`: note the filepath is the rewritten, bucket-prefixed
path, and the checksum field is a one-element list. -/
def happyEvent : Event :=
  { operation := "upload"
    username := "alice"
    filepath := "/test/alice/data.bam"
    filesize := 100
    checksum := [{ type := "md5", value := "abc123" }] }

/-! Section: Claim theorems -/

/-- C1 counterexample: on method GET, path `/foo` and query `xacl=1`, the
code classifies List (no `?acl` substring in the URL string `/foo?xacl=1`)
while the claim's rule table (`acl` contained in the query) classifies
Policy. -/
theorem C1_counterexample :
    detectRequestType "GET" ⟨"/foo", "xacl=1"⟩ = S3RequestType.List ∧
    classifyClaim "GET" "/foo" "xacl=1" = S3RequestType.Policy ∧
    detectRequestType "GET" ⟨"/foo", "xacl=1"⟩ ≠ classifyClaim "GET" "/foo" "xacl=1" := by
  decide

/-- C1 amended: classification is a pure total function of (method, path,
query), and it applies the per-method rule tables to the full URL string
(path, then `?` and the raw query when the query is nonempty): for GET, URL
string ending with `/` yields Get, URL string containing `?acl` yields
Policy, otherwise List; for DELETE, URL string ending with `/` yields
RemoveBucket, URL string containing `uploadId` yields AbortMultipart,
otherwise Delete; for PUT, URL string ending with `/` yields MakeBucket, URL
string containing `?policy` yields Policy, otherwise Put; any other method
yields Other. -/
theorem C1_classification (method path query : String) :
    detectRequestType method ⟨path, query⟩ =
      classifyAmended method (URL.toGoString ⟨path, query⟩) := rfl

/-- C2: the gate embedded in `ServeHTTP` allows exactly
{Put, List, Other, AbortMultipart} and denies exactly
{MakeBucket, RemoveBucket, Delete, Policy, Get} (the two sets partition the
nine categories, so anything outside the allow set is denied — fail-closed),
and a denied request is answered with status 403 and nothing else: no
authentication, no rewrite, no backend call, no event, no termination. -/
theorem C2_policy_gate :
    (∀ t, isAllowed t = true ↔
       (t = S3RequestType.Put ∨ t = S3RequestType.List ∨
        t = S3RequestType.Other ∨ t = S3RequestType.AbortMultipart)) ∧
    (∀ t, isAllowed t = false ↔
       (t = S3RequestType.MakeBucket ∨ t = S3RequestType.RemoveBucket ∨
        t = S3RequestType.Delete ∨ t = S3RequestType.Policy ∨ t = S3RequestType.Get)) ∧
    (∀ bucket env method u, isAllowed (detectRequestType method u) = false →
       serveHTTP bucket env method u = deniedTrace) := by
  refine ⟨fun t => ?_, fun t => ?_, fun bucket env method u h => ?_⟩
  · cases t <;> simp [isAllowed]
  · cases t <;> simp [isAllowed]
  · simp [serveHTTP, h]

/-- C2 witness: DELETE of `/alice/x` classifies Delete, is denied, and the
whole trace is the bare 403. -/
theorem C2_policy_gate_witness :
    serveHTTP "test" happyEnv "DELETE" ⟨"/alice/x", ""⟩ = deniedTrace :=
  C2_policy_gate.2.2 "test" happyEnv "DELETE" ⟨"/alice/x", ""⟩ (by decide)

/-- C3 counterexample: an allowed GET with a delimiter query whose query
string is `delimiter=%2F&prefixx=1`.  No `prefix` parameter exists (the
query does not even contain `prefix=`), so the claim requires
`&prefix=alice%2F` to be appended — but the rewrite panics: the query
contains `&prefix` (inside `&prefixx`), so the code splits on `&prefix=`,
which does not occur, and Go's `params[1]` index is out of range
(modelled `none`). -/
theorem C3_counterexample :
    isAllowed (detectRequestType "GET" ⟨"/alice/x", "delimiter=%2F&prefixx=1"⟩) = true ∧
    goContains (URL.toGoString ⟨"/alice/x", "delimiter=%2F&prefixx=1"⟩) "?delimiter" = true ∧
    goContains "delimiter=%2F&prefixx=1" "prefix=" = false ∧
    prependBucketToHostPath "test" "GET" ⟨"/alice/x", "delimiter=%2F&prefixx=1"⟩ = none := by
  decide

/-- C3 amended: for every GET whose URL string contains `?delimiter` and
whose path matches the username regex, the rewriter sets the path to the
bucket root and scopes the query: when the query does not contain the
substring `&prefix`, it appends `&prefix=<username>%2F`; when the query
contains `&prefix=`, it inserts the username segment ahead of the text
following the first `&prefix=` (`p0` is the text before the first
`&prefix=`, `p1` the text from there to any second occurrence, which is
dropped); when the query contains `&prefix` but not `&prefix=`, the rewrite
panics with an index out of range instead of appending. -/
theorem C3_list_delimiter_rewrite (bucket path query : String) (uname : List Char)
    (hu : findFirstSeg path.data = some uname)
    (hd : goContains (URL.toGoString ⟨path, query⟩) "?delimiter" = true) :
    (goContains query "&prefix" = false →
       prependBucketToHostPath bucket "GET" ⟨path, query⟩ =
         some ⟨"/" ++ bucket ++ "/", query ++ "&prefix=" ++ (⟨uname⟩ : String) ++ "%2F"⟩) ∧
    (∀ p0 p1, goContains query "&prefix" = true →
       goSplitGet01 query.data "&prefix=".data = some (p0, p1) →
       prependBucketToHostPath bucket "GET" ⟨path, query⟩ =
         some ⟨"/" ++ bucket ++ "/",
               (⟨p0⟩ : String) ++ "&prefix=" ++ (⟨uname⟩ : String) ++ "%2F" ++ (⟨p1⟩ : String)⟩) ∧
    (goContains query "&prefix" = true →
       goSplitGet01 query.data "&prefix=".data = none →
       prependBucketToHostPath bucket "GET" ⟨path, query⟩ = none) := by
  refine ⟨fun h => ?_, fun p0 p1 hcp hs => ?_, fun hcp hs => ?_⟩ <;>
    simp [prependBucketToHostPath, hu, hd, *]

/-- C3 witness: the two concrete examples quoted by the claim, with bucket
`test` and username `alice`: without an existing prefix the query gains
`&prefix=alice%2F`; with `delimiter=/&prefix=sub/` the query becomes
`delimiter=/&prefix=alice%2Fsub/`. -/
theorem C3_list_delimiter_rewrite_witness :
    prependBucketToHostPath "test" "GET" ⟨"/alice/x", "delimiter=/"⟩ =
      some ⟨"/test/", "delimiter=/&prefix=alice%2F"⟩ ∧
    prependBucketToHostPath "test" "GET" ⟨"/alice/x", "delimiter=/&prefix=sub/"⟩ =
      some ⟨"/test/", "delimiter=/&prefix=alice%2Fsub/"⟩ :=
  ⟨((C3_list_delimiter_rewrite "test" "/alice/x" "delimiter=/" "alice".data
       (by decide) (by decide)).1 (by decide)).trans (by decide),
   ((C3_list_delimiter_rewrite "test" "/alice/x" "delimiter=/&prefix=sub/" "alice".data
       (by decide) (by decide)).2.1 "delimiter=/".data "sub/".data
       (by decide) (by decide)).trans (by decide)⟩

/-- C4 counterexample: a PUT without `partNumber` that the backend answers
with 201 — a 2xx success — is reported as not finished, because the code
tests `StatusCode != 200`, not "non-2xx". The claim says this input yields
true. -/
theorem C4_counterexample :
    uploadFinishedSuccessfully "PUT" ⟨"/alice/f", ""⟩ 201 = false ∧
    (200 ≤ 201 ∧ 201 < 300) ∧
    goContains (URL.toGoString ⟨"/alice/f", ""⟩) "partNumber" = false := by
  decide

/-- C4 amended: the completion detector returns false whenever the backend
status is not exactly 200; with status 200 it returns true for a PUT whose
URL string does not contain `partNumber`, true for a POST whose URL string
contains `uploadId`, and false in every other case. -/
theorem C4_completion_detector (method : String) (u : URL) (status : Nat) :
    uploadFinishedSuccessfully method u status =
      ((status == 200) &&
        ((method == "PUT" && !goContains u.toGoString "partNumber") ||
         (method == "POST" && goContains u.toGoString "uploadId"))) := by
  by_cases h200 : status = 200
  · subst h200
    by_cases hput : method = "PUT" <;> by_cases hpost : method = "POST" <;>
      cases hpn : goContains u.toGoString "partNumber" <;>
        cases hui : goContains u.toGoString "uploadId" <;>
          simp [uploadFinishedSuccessfully, hput, hpost, hpn, hui]
  · simp [uploadFinishedSuccessfully, h200, Ne.symm h200]

/-- C5 counterexample: in the healthy end-to-end scenario (authenticated PUT
of `/alice/data.bam`, bucket `test`, backend answers 200), the single
published event carries filepath `/test/alice/data.bam` — the rewritten,
bucket-prefixed path — not `/alice/data.bam` as the claim states. -/
theorem C5_counterexample :
    (serveHTTP "test" happyEnv "PUT" ⟨"/alice/data.bam", ""⟩).events.map Event.filepath =
      ["/test/alice/data.bam"] ∧
    ("/test/alice/data.bam" : String) ≠ "/alice/data.bam" := by
  decide

/-- C5 amended: in that scenario the caller receives 200 and exactly one
event is handed to the messenger, with operation `upload`, username `alice`,
filepath equal to the rewritten path `/test/alice/data.bam`, and size and
checksum taken from the backend listing for the key `alice/data.bam` (the
quoted ETag `"abc123"` stripped to `abc123`, size 100 — no client header is
consulted); its serialized body has the fields operation, user, filepath,
filesize, encoded_checksum, where encoded_checksum is a one-element array
holding a single type/value object. -/
theorem C5_upload_event :
    serveHTTP "test" happyEnv "PUT" ⟨"/alice/data.bam", ""⟩ =
      { status := some 200, events := [happyEvent], authChecked := true, rewritten := true
        backendCalled := true, terminated := false, panicked := false } ∧
    happyEvent.operation = "upload" ∧
    happyEvent.username = "alice" ∧
    happyEvent.filepath = "/test/alice/data.bam" ∧
    happyEvent.filesize = 100 ∧
    happyEvent.checksum = [{ type := "md5", value := stripQuotes "\"abc123\"" }] ∧
    serializeEvent happyEvent =
      "\x7b\"operation\":\"upload\",\"user\":\"alice\",\"filepath\":\"/test/alice/data.bam\",\"filesize\":100,\"encoded_checksum\":[\x7b\"type\":\"md5\",\"value\":\"abc123\"\x7d]\x7d" := by
  decide

/-- C6 counterexample: with a successful publish call and a negative
confirmation (tag 7, not acked), `SendMessage` returns no error — the
deferred `confirmOne` does produce an error for that confirmation, but its
return value is discarded, so the caller never sees the nack. -/
theorem C6_counterexample :
    (sendMessage ⟨"localega.v1", "files.inbox"⟩ happyEvent "corr-1" none ⟨false, 7⟩).returned =
      none ∧
    confirmOne ⟨false, 7⟩ = Except.error "failed delivery of delivery tag: 7" := by
  decide

/-- C6 amended: every `SendMessage` call serializes the event, attaches the
freshly generated correlation identifier, publishes with non-persistent
delivery mode (1) to the configured exchange and routing key, and blocks for
exactly one delivery confirmation before returning; but the confirmation
check's error is discarded (the deferred call's return value is ignored), so
a negative acknowledgment is never returned to the caller — the caller
receives only the error of the publish call itself. -/
theorem C6_send_message (m : AMQPMessenger) (message : Event) (corrId : String)
    (publishErr : Option String) (conf : Confirmation) :
    sendMessage m message corrId publishErr conf =
      { published :=
          { exchange := m.exchange, routingKey := m.routingKey
            mandatory := false, immediate := false
            contentEncoding := "UTF-8", contentType := "application/json"
            deliveryMode := 1, correlationId := corrId, priority := 0
            body := serializeEvent message }
        confirmationsAwaited := 1
        returned := publishErr } := rfl

/-- C7: when the backend metadata listing for a completed upload fails, the
code reaches `log.Fatalf` — the process terminates and the backend's
response is never written to the caller (status `none`), contradicting the
claim that the event is skipped non-fatally. -/
theorem C7_fatal_on_listing_error :
    serveHTTP "test" listingFailsEnv "PUT" ⟨"/alice/data.bam", ""⟩ =
      { status := none, events := [], authChecked := true, rewritten := true
        backendCalled := true, terminated := true, panicked := false } := by
  decide

/-- C8: an allowed, authenticated PUT to `/alice` (no trailing slash, so the
username regex `/([^/]+)/` has no match) panics in the rewriter — Go indexes
`[1]` into the nil `FindStringSubmatch` result — instead of yielding an
error result; when extraction does match, the rewriter (on the original
path) and the event builder (on the bucket-prefixed rewritten path) agree on
the username. -/
theorem C8_extraction_panics :
    isAllowed (detectRequestType "PUT" ⟨"/alice", ""⟩) = true ∧
    findFirstSeg "/alice".data = none ∧
    prependBucketToHostPath "test" "PUT" ⟨"/alice", ""⟩ = none ∧
    (serveHTTP "test" happyEnv "PUT" ⟨"/alice", ""⟩).panicked = true ∧
    findFirstSeg "/alice/data.bam".data = some "alice".data ∧
    findSecondSeg "/test/alice/data.bam".data = some "alice".data := by
  decide

/-- C9 counterexample: GET of `/alice/` with no query is classified Get (the
URL string ends with `/`), not List; Get is in the deny set, so the request
is answered 403 with no backend call and no event — it is not forwarded. -/
theorem C9_counterexample :
    detectRequestType "GET" ⟨"/alice/", ""⟩ = S3RequestType.Get ∧
    detectRequestType "GET" ⟨"/alice/", ""⟩ ≠ S3RequestType.List ∧
    serveHTTP "test" happyEnv "GET" ⟨"/alice/", ""⟩ = deniedTrace := by
  decide

/-- C9 amended: a GET request to `/alice/` with no query string is
classified Get, denied by the policy gate, and answered 403 with no
authentication, no rewrite, no backend forward and no event, whatever the
collaborators would have done. -/
theorem C9_bucket_listing_denied (bucket : String) (env : Env) :
    detectRequestType "GET" ⟨"/alice/", ""⟩ = S3RequestType.Get ∧
    serveHTTP bucket env "GET" ⟨"/alice/", ""⟩ = deniedTrace :=
  ⟨by decide, rfl⟩

/-- C10: the metadata resolver returns without error exactly when the
session opens, the backend listing for the derived key succeeds and the
listing is nonempty, and then it returns the first object's ETag with the
double quotes removed together with that object's size; a successful but
empty listing is not an error return — it reaches the unguarded
`Contents[0]` dereference (a Go panic, modelled `none`), so the dereference
yields a value only under the nonempty-listing precondition. -/
theorem C10_requestInfo (bucket fullPath : String) (sessionErr : Option String)
    (listObjects : String → Except String (List S3Object)) :
    (∀ etag size,
       requestInfo bucket fullPath sessionErr listObjects = some (Except.ok (etag, size)) ↔
         (sessionErr = none ∧
           ∃ obj rest, listObjects (requestInfoKey bucket fullPath) = Except.ok (obj :: rest) ∧
             etag = stripQuotes obj.eTag ∧ size = obj.size)) ∧
    (sessionErr = none →
       listObjects (requestInfoKey bucket fullPath) = Except.ok [] →
       requestInfo bucket fullPath sessionErr listObjects = none) := by
  constructor
  · intro etag size
    cases hs : sessionErr with
    | some e => simp [requestInfo, hs]
    | none =>
      cases hl : listObjects (requestInfoKey bucket fullPath) with
      | error e => simp [requestInfo, hs, hl]
      | ok contents =>
        cases contents with
        | nil => simp [requestInfo, hs, hl]
        | cons obj rest => simp [requestInfo, hs, hl, eq_comm]
  · intro h1 h2
    simp [requestInfo, h1, h2]

/-- C10 witness: with key `alice/a.txt` under bucket `test`, an empty
successful listing makes `requestInfo` panic (`none`), and a listing whose
first object has ETag `"e"` and size 5 makes it return `("e", 5)`. -/
theorem C10_requestInfo_witness :
    requestInfo "test" "/test/alice/a.txt" none (fun _ => Except.ok []) = none ∧
    requestInfo "test" "/test/alice/a.txt" none
        (fun _ => Except.ok [{ eTag := "\"e\"", size := 5 }]) =
      some (Except.ok ("e", 5)) :=
  ⟨(C10_requestInfo "test" "/test/alice/a.txt" none (fun _ => Except.ok [])).2 rfl rfl,
   ((C10_requestInfo "test" "/test/alice/a.txt" none
       (fun _ => Except.ok [{ eTag := "\"e\"", size := 5 }])).1 "e" 5).mpr
     ⟨rfl, { eTag := "\"e\"", size := 5 }, [], rfl, by decide, rfl⟩⟩

end S3Proxy
